import Mathlib

/-!
Verification of the payment-request subsystem of the Solana Pay tutorial
(repository mcintyre94/nextra-pay-tutorial). The executable code of the
repository lives inside the tutorial pages, chiefly
`src/pages/our-first-sale.mdx`:

* the API route `pages/api/makeTransaction.ts` (the `handler` function),
  which builds and serializes an unsigned transfer transaction;
* the checkout page `pages/checkout.tsx`, with the memoized reference,
  `getTransaction`, `trySendTransaction`, and the 500 ms polling effect.

Ledger addresses (public keys) are abstracted as natural numbers, monetary
amounts as exact rationals (the source uses `bignumber.js` exact decimal
arithmetic), and the base58 ordering used by the serializer as the order
on naturals. Entropy, the network and React scheduling are passed in as
explicit parameters or event lists.
-/

/-- Ledger addresses (Solana public keys), abstracted as naturals. -/
abbrev Pubkey : Type := Nat

/-- A recent-blockhash validity anchor, abstracted. -/
abbrev Blockhash : Type := Nat

/-- The address of the System Program (the owner of the transfer
instruction), a distinguished well-known address. -/
def systemProgramId : Pubkey := 0

/-- One `(pubkey, isSigner, isWritable)` entry of the key list of an
instruction, as in `@solana/web3.js` `AccountMeta`. -/
structure AccountMeta where
  pubkey : Pubkey
  isSigner : Bool
  isWritable : Bool
deriving DecidableEq, Repr

/-- A transaction instruction: program id, key list, and payload. The
only instruction built by this repository is a System Program transfer,
whose payload is its lamports amount; we record that amount directly
(its byte encoding is injective and copied verbatim by the serializer,
so nothing is lost by this abstraction). -/
structure TransactionInstruction where
  programId : Pubkey
  keys : List AccountMeta
  data : Rat
deriving DecidableEq, Repr

/-- One signature slot of a transaction: `none` stands for a present but
empty (all-zero) signature, as produced for required signers that have
not signed yet. -/
structure SignaturePubkeyPair where
  signature : Option Nat
  publicKey : Pubkey
deriving DecidableEq, Repr

/-- A `@solana/web3.js` `Transaction` as used by the repository: fee
payer, recent blockhash, ordered instructions, and signature slots. -/
structure Transaction where
  recentBlockhash : Option Blockhash
  feePayer : Option Pubkey
  instructions : List TransactionInstruction
  signatures : List SignaturePubkeyPair
deriving DecidableEq, Repr

/-- `SystemProgram.transfer({fromPubkey, lamports, toPubkey})` from
`@solana/web3.js`: a single instruction owned by the System Program whose
default keys are the source (signer, writable) and the destination
(non-signer, writable). -/
def SystemProgram.transfer (fromPubkey toPubkey : Pubkey) (lamports : Rat) :
    TransactionInstruction :=
  { programId := systemProgramId
  , keys := [⟨fromPubkey, true, true⟩, ⟨toPubkey, false, true⟩]
  , data := lamports }

/-- There are 10^9 lamports in one SOL (`LAMPORTS_PER_SOL` in
`@solana/web3.js`). -/
def LAMPORTS_PER_SOL : Rat := 1000000000

/-- The shop wallet address from `lib/addresses.ts`. The tutorial leaves
the literal as a placeholder for the reader to fill in; we fix an
arbitrary address distinct from the System Program address. Theorems
never rely on its particular value beyond explicit hypotheses. -/
def shopAddress : Pubkey := 2

/-- The transaction built by the success path of the handler in
`pages/api/makeTransaction.ts`: a `Transaction` with the fetched
blockhash and the buyer as fee payer, holding the single transfer
instruction from the buyer to the shop for `amount * LAMPORTS_PER_SOL`
lamports, with the reference pushed onto the instruction key list as a
non-signer, non-writable key, and no signatures yet. -/
def makeTransaction (blockhash : Blockhash) (buyerPublicKey shopPublicKey reference : Pubkey)
    (amount : Rat) : Transaction :=
  let transferInstruction :=
    SystemProgram.transfer buyerPublicKey shopPublicKey (amount * LAMPORTS_PER_SOL)
  let taggedInstruction :=
    { transferInstruction with
        keys := transferInstruction.keys ++ [⟨reference, false, false⟩] }
  { recentBlockhash := some blockhash
  , feePayer := some buyerPublicKey
  , instructions := [taggedInstruction]
  , signatures := [] }

/-- A product of the store catalog (`lib/products.ts`, shown in
`src/pages/index.mdx`), with its price in SOL as an exact decimal. -/
structure StoreProduct where
  id : String
  priceSol : Rat
deriving DecidableEq, Repr

/-- The catalog from `lib/products.ts`: a box of cookies at 0.05 SOL and
a basket of cookies at 0.1 SOL. -/
def products : List StoreProduct :=
  [⟨"box-of-cookies", 5/100⟩, ⟨"basket-of-cookies", 10/100⟩]

/-- Modelled from the spec: `lib/calculatePrice.ts` is imported by the
handler but its code is not under `src/`. Spec section 4.1: input is a
mapping of product identifier to non-negative integer quantity; output
is the total amount as an exact decimal; it fails with InvalidSelection
when any identifier is unknown. The ZeroAmount case is returned rather
than thrown, since the handler in `src/` performs the zero-charge
rejection itself on the returned amount. -/
def calculatePrice : List (String × Nat) → Except String Rat
  | [] => .ok 0
  | (id, quantity) :: rest =>
    match products.find? (fun p => p.id == id) with
    | none => .error "InvalidSelection"
    | some p => (calculatePrice rest).map (fun total => total + quantity * p.priceSol)

/-- The inputs of one request to `pages/api/makeTransaction.ts`: the
selected line items and the reference from the query string, and the
buyer account from the JSON body. `none` models an absent field. -/
structure ApiRequest where
  items : List (String × Nat)
  reference : Option Pubkey
  account : Option Pubkey
deriving DecidableEq, Repr

/-- Header of a compiled message: the counts that classify the account
key list into signer/non-signer and writable/readonly segments. -/
structure MessageHeader where
  numRequiredSignatures : Nat
  numReadonlySignedAccounts : Nat
  numReadonlyUnsignedAccounts : Nat
deriving DecidableEq, Repr

/-- An instruction compiled against the account key list of a message:
indices replace keys, the payload is copied verbatim. -/
structure CompiledInstruction where
  programIdIndex : Nat
  accounts : List Nat
  data : Rat
deriving DecidableEq, Repr

/-- Modelled from the spec: the wire message produced by the
`@solana/web3.js` serializer (a dependency, not under `src/`); spec
sections 3 and 4.4 require a byte-accurate, round-trippable encoding
with signature slots allowed to be empty. -/
structure TxMessage where
  header : MessageHeader
  accountKeys : List Pubkey
  recentBlockhash : Blockhash
  instructions : List CompiledInstruction
deriving DecidableEq, Repr

/-- The transport form of a transaction: the signature slots followed by
the compiled message. The base64 layer applied by the handler is a
bijection on bytes and is abstracted away. -/
structure SerializedTransaction where
  signatures : List (Option Nat)
  message : TxMessage
deriving DecidableEq, Repr

/-- Merge an account meta into the first entry of the list holding the
same pubkey, OR-ing the signer and writable flags, as the duplicate cull
of `compileMessage` does. -/
def mergeIntoFirst (m : AccountMeta) : List AccountMeta → List AccountMeta
  | [] => []
  | x :: xs =>
    if x.pubkey == m.pubkey then
      { x with isSigner := x.isSigner || m.isSigner
             , isWritable := x.isWritable || m.isWritable } :: xs
    else
      x :: mergeIntoFirst m xs

/-- Cull duplicate account metas, keeping first-occurrence order and
OR-merging flags of duplicates. -/
def cullDuplicateMetas (ms : List AccountMeta) : List AccountMeta :=
  ms.foldl
    (fun acc m =>
      if acc.any (fun x => x.pubkey == m.pubkey) then mergeIntoFirst m acc
      else acc ++ [m])
    []

/-- The sort comparator of `compileMessage`: signers before non-signers,
then writable before readonly, ties broken by the base58 ordering of the
pubkeys (abstracted as the order on naturals). `metaLE x y` holds when
`x` may come before `y`. -/
def metaLE (x y : AccountMeta) : Bool :=
  if x.isSigner != y.isSigner then x.isSigner
  else if x.isWritable != y.isWritable then x.isWritable
  else decide (x.pubkey ≤ y.pubkey)

/-- Insertion step of the comparator sort. -/
def insertMeta (m : AccountMeta) : List AccountMeta → List AccountMeta
  | [] => [m]
  | x :: xs => if metaLE m x then m :: x :: xs else x :: insertMeta m xs

/-- Sort account metas by `metaLE` (insertion sort; the comparator is a
total order on the culled, duplicate-free lists it is applied to). -/
def sortMetas (ms : List AccountMeta) : List AccountMeta :=
  ms.foldr insertMeta []

/-- Collect the distinct program ids of the instructions, in first-use
order. -/
def collectProgramIds (instrs : List TransactionInstruction) : List Pubkey :=
  instrs.foldl (fun acc i => if acc.contains i.programId then acc else acc ++ [i.programId]) []

/-- First index of a pubkey in a key list (the `indexOf` used when
compiling instructions to indices). -/
def idxOf (p : Pubkey) : List Pubkey → Nat
  | [] => 0
  | q :: rest => if q == p then 0 else idxOf p rest + 1

/-- Modelled from the spec: `Transaction.compileMessage` of
`@solana/web3.js` (dependency, not under `src/`), per spec section 4.4:
gather the account metas of every instruction plus one readonly
non-signer meta per program id, cull duplicates, sort signers first then
writable first, force the fee payer to the front as a writable signer,
and compile each instruction to indices into the resulting key list. -/
def compileMessage (feePayer : Pubkey) (recentBlockhash : Blockhash)
    (instrs : List TransactionInstruction) : TxMessage :=
  let accountMetas :=
    instrs.foldl (fun acc i => acc ++ i.keys) []
      ++ (collectProgramIds instrs).map (fun p => ⟨p, false, false⟩)
  let uniqueMetas := sortMetas (cullDuplicateMetas accountMetas)
  let withPayer : List AccountMeta :=
    ⟨feePayer, true, true⟩ :: uniqueMetas.filter (fun m => m.pubkey != feePayer)
  let signedKeys := withPayer.filter (fun m => m.isSigner)
  let unsignedKeys := withPayer.filter (fun m => !m.isSigner)
  let accountKeys := (signedKeys ++ unsignedKeys).map (fun m => m.pubkey)
  { header :=
      { numRequiredSignatures := signedKeys.length
      , numReadonlySignedAccounts := (signedKeys.filter (fun m => !m.isWritable)).length
      , numReadonlyUnsignedAccounts := (unsignedKeys.filter (fun m => !m.isWritable)).length }
  , accountKeys := accountKeys
  , recentBlockhash := recentBlockhash
  , instructions := instrs.map (fun i =>
      { programIdIndex := idxOf i.programId accountKeys
      , accounts := i.keys.map (fun k => idxOf k.pubkey accountKeys)
      , data := i.data }) }

/-- Look up the signature produced by a given key, `none` when the key
has not signed (the slot is emitted zero-filled). -/
def lookupSignature (sigs : List SignaturePubkeyPair) (k : Pubkey) : Option Nat :=
  match sigs.find? (fun s => s.publicKey == k) with
  | some s => s.signature
  | none => none

/-- Modelled from the spec: `transaction.serialize({requireAllSignatures:
false})` of `@solana/web3.js` (dependency, not under `src/`), per spec
section 4.4: compile the message and emit one signature slot per
required signer, zero-filled (`none`) for signers that have not signed;
fails (throws) when the blockhash or fee payer is missing. -/
def serializeTx (tx : Transaction) : Option SerializedTransaction :=
  match tx.recentBlockhash, tx.feePayer with
  | some bh, some fp =>
    let msg := compileMessage fp bh tx.instructions
    some
      { signatures :=
          (msg.accountKeys.take msg.header.numRequiredSignatures).map
            (fun k => lookupSignature tx.signatures k)
      , message := msg }
  | _, _ => none

/-- Account `i` of a message is writable when it lies in the writable
signer segment or in the writable non-signer segment, as computed by
`Message.isAccountWritable`. -/
def isAccountWritable (h : MessageHeader) (numKeys i : Nat) : Bool :=
  if i < h.numRequiredSignatures then
    decide (i < h.numRequiredSignatures - h.numReadonlySignedAccounts)
  else
    decide (i - h.numRequiredSignatures
      < numKeys - h.numRequiredSignatures - h.numReadonlyUnsignedAccounts)

/-- Key lookup with out-of-range default, as JS array indexing. -/
def getKey (keys : List Pubkey) (i : Nat) : Pubkey :=
  keys.getD i 0

/-- Modelled from the spec: `Transaction.from` / `Transaction.populate`
of `@solana/web3.js` (dependency, not under `src/`), per spec section
4.4: rebuild the transaction from the wire form, deriving each key flag
pair from the position of the key in the header segments, pairing the
decoded signature slots with the leading account keys, and taking the
first account key as fee payer. -/
def populateTx (st : SerializedTransaction) : Transaction :=
  let msg := st.message
  let n := msg.header.numRequiredSignatures
  { recentBlockhash := some msg.recentBlockhash
  , feePayer := if 0 < n then (msg.accountKeys.take n).head? else none
  , instructions := msg.instructions.map (fun ci =>
      { programId := getKey msg.accountKeys ci.programIdIndex
      , keys := ci.accounts.map (fun i =>
          { pubkey := getKey msg.accountKeys i
          , isSigner := decide (i < n)
          , isWritable := isAccountWritable msg.header msg.accountKeys.length i })
      , data := ci.data })
  , signatures :=
      (st.signatures.zip (msg.accountKeys.take st.signatures.length)).map
        (fun p => ⟨p.1, p.2⟩) }

/-- The body of a response of the API route: on success the serialized
transaction and the order message, on failure an error string. -/
inductive ResponseBody where
  | output (transaction : SerializedTransaction) (message : String)
  | failure (error : String)
deriving DecidableEq, Repr

/-- An HTTP-style response of the API route. -/
structure ApiResponse where
  status : Nat
  body : ResponseBody
deriving DecidableEq, Repr

/-- The handler of `pages/api/makeTransaction.ts`. The checks run in
source order: compute the amount (a throw inside the try block, such as
InvalidSelection, lands in the catch and yields the generic 500), reject
a zero charge, a missing reference, and a missing account with 400, then
fetch the latest finalized blockhash (the `ledger` argument; a fetch
failure carries its internal detail in the `Except.error` payload and
lands in the catch), build the transaction, serialize it, and answer 200
with the serialized transaction and the thanks message. -/
def handler (ledger : Except String Blockhash) (req : ApiRequest) : ApiResponse :=
  match calculatePrice req.items with
  | .error _ => ⟨500, .failure "error creating transaction"⟩
  | .ok amount =>
    if amount = 0 then ⟨400, .failure "Can't checkout with charge of 0"⟩
    else
      match req.reference with
      | none => ⟨400, .failure "No reference provided"⟩
      | some reference =>
        match req.account with
        | none => ⟨400, .failure "No account provided"⟩
        | some buyerPublicKey =>
          match ledger with
          | .error _ => ⟨500, .failure "error creating transaction"⟩
          | .ok blockhash =>
            let transaction :=
              makeTransaction blockhash buyerPublicKey shopAddress reference amount
            match serializeTx transaction with
            | none => ⟨500, .failure "error creating transaction"⟩
            | some st => ⟨200, .output st "Thanks for your order! 🍪"⟩

/-- The React state of the checkout page `pages/checkout.tsx` during one
checkout attempt (one mount of the component): the memoized reference,
the `transaction` and `message` state hooks, a count of reference
generations (specification bookkeeping for the `useMemo` semantics), and
the list of transactions the server built during the attempt
(specification bookkeeping; the component itself stores only the last
decoded one). -/
structure ClientState where
  reference : Pubkey
  referencesGenerated : Nat
  transaction : Option Transaction
  message : Option String
  builtTxs : List Transaction
deriving DecidableEq, Repr

/-- Mounting the checkout page: `useMemo(() => Keypair.generate().publicKey, [])`
runs the generator exactly once and memoizes the resulting public key
for the lifetime of the component; `ref` is the freshly generated key
(entropy passed in), and both state hooks start at `null`. -/
def mountCheckout (ref : Pubkey) : ClientState :=
  { reference := ref
  , referencesGenerated := 1
  , transaction := none
  , message := none
  , builtTxs := [] }

/-- `getTransaction` of `pages/checkout.tsx`, applied to the response it
fetched: return early when no wallet is connected; when the response
status is not 200, log the body and return without touching any state;
otherwise decode the transaction from the response with
`Transaction.from` and store it and the message. -/
def getTransaction (publicKey : Option Pubkey) (response : ApiResponse)
    (s : ClientState) : ClientState :=
  match publicKey with
  | none => s
  | some _ =>
    if response.status ≠ 200 then s
    else
      match response.body with
      | .output tx msg =>
        { s with transaction := some (populateTx tx), message := some msg }
      | .failure _ => s

/-- Specification-side projection of the handler: the transaction the
handler builds on its success path, `none` on every failure path. Used
only to log built transactions in the ghost field `builtTxs`. -/
def handlerBuiltTx (ledger : Except String Blockhash) (req : ApiRequest) :
    Option Transaction :=
  match calculatePrice req.items with
  | .error _ => none
  | .ok amount =>
    if amount = 0 then none
    else
      match req.reference, req.account, ledger with
      | some reference, some account, .ok blockhash =>
        some (makeTransaction blockhash account shopAddress reference amount)
      | _, _, _ => none

/-- One run of the `useEffect(() => { getTransaction() }, [publicKey])`
effect of the checkout page: it fires whenever the wallet public key
becomes available or changes, re-running `getTransaction` against the
API with the memoized reference appended to the search params and the
current wallet key as the account. The ghost field `builtTxs` records
the transaction the server built, when it built one. -/
def checkoutStep (ledger : Except String Blockhash) (items : List (String × Nat))
    (s : ClientState) (publicKey : Option Pubkey) : ClientState :=
  match publicKey with
  | none => s
  | some account =>
    let req : ApiRequest := ⟨items, some s.reference, some account⟩
    let s1 := getTransaction publicKey (handler ledger req) s
    { s1 with builtTxs := s1.builtTxs ++ (handlerBuiltTx ledger req).toList }

/-- A whole checkout attempt: mount once, then run the transaction-fetch
effect on every change of the wallet public key, in order. -/
def runCheckout (ledger : Except String Blockhash) (items : List (String × Nat))
    (s : ClientState) (events : List (Option Pubkey)) : ClientState :=
  events.foldl (checkoutStep ledger items) s

/-- The possible outcomes of `sendTransaction(transaction, connection)`:
the wallet signs and broadcasts and returns a signature, the user
declines, the validity anchor has gone stale while awaiting the user, or
any other failure. The three failure cases reach the checkout page as
thrown errors. -/
inductive SendOutcome where
  | success (signature : Nat)
  | userRejected
  | staleTransaction
  | otherFailure (message : String)
deriving DecidableEq, Repr

/-- `trySendTransaction` of `pages/checkout.tsx`: return early when no
transaction has been fetched yet; otherwise submit it, and catch any
thrown error with a single `console.error`. The result pairs the state
after the call with whether an error was logged; the source has no other
observable behavior on this path: no state transition, no rebuild, no
retry. -/
def trySendTransaction (s : ClientState) (outcome : SendOutcome) :
    ClientState × Bool :=
  match s.transaction with
  | none => (s, false)
  | some _ =>
    match outcome with
    | .success _ => (s, false)
    | .userRejected => (s, true)
    | .staleTransaction => (s, true)
    | .otherFailure _ => (s, true)

/-- What one poll of `findReference(connection, reference)` can produce:
a settled transaction carrying the reference, the explicit
`FindReferenceError` meaning no matching transaction yet, or any other
failure (network error, malformed response). -/
inductive PollResult where
  | found (signatureInfo : Nat)
  | findReferenceError
  | otherError (message : String)
deriving DecidableEq, Repr

/-- The events driving the polling `useEffect` of the checkout page: a
timer tick of the 500 ms interval together with what the ledger query
returned on that tick, or the effect cleanup (component unmount through
navigation, cancellation or error), which runs `clearInterval`. -/
inductive PollEvent where
  | tick (r : PollResult)
  | cleanup
deriving DecidableEq, Repr

/-- Observable state of the polling effect: whether the interval is
still scheduled, and counts of ledger queries issued, confirmed
navigations emitted (`router.push("/confirmed")`), and unknown errors
logged (`console.error("Unknown error", e)`). -/
structure PollerState where
  timerActive : Bool
  queriesMade : Nat
  confirmations : Nat
  errorsReported : Nat
deriving DecidableEq, Repr

/-- The state right after the polling effect ran and called
`setInterval`. -/
def pollerInit : PollerState :=
  { timerActive := true, queriesMade := 0, confirmations := 0, errorsReported := 0 }

/-- One step of the polling effect, from the interval callback of
`pages/checkout.tsx`: a tick fires only while the interval is scheduled;
it always issues the `findReference` query; on a match it emits the
confirmed navigation (and does nothing else: in particular the callback
never clears the interval); on `FindReferenceError` it returns silently;
on any other error it logs it and keeps going. The cleanup runs
`clearInterval`, unscheduling the timer. -/
def pollerStep (s : PollerState) : PollEvent → PollerState
  | .tick r =>
    if s.timerActive then
      match r with
      | .found _ =>
        { s with queriesMade := s.queriesMade + 1
               , confirmations := s.confirmations + 1 }
      | .findReferenceError =>
        { s with queriesMade := s.queriesMade + 1 }
      | .otherError _ =>
        { s with queriesMade := s.queriesMade + 1
               , errorsReported := s.errorsReported + 1 }
    else s
  | .cleanup => { s with timerActive := false }

/-- Run the polling effect over a sequence of events. -/
def pollerRun (s : PollerState) (events : List PollEvent) : PollerState :=
  events.foldl pollerStep s

/-- A transaction carries `ref` as an appended lookup key: it has
exactly one instruction, and the key list of that instruction ends with
the meta `(ref, isSigner false, isWritable false)`. -/
def carriesReference (ref : Pubkey) (tx : Transaction) : Prop :=
  ∃ i pre, tx.instructions = [i] ∧ i.keys = pre ++ [⟨ref, false, false⟩]

/-- Every total the price calculator can return converts to lamports as
an exact natural number: each catalog price is a multiple of one
lamport, so `amount * LAMPORTS_PER_SOL` has no fractional part for any
selection. -/
theorem calculatePrice_lamports_nat (items : List (String × Nat)) (amount : Rat)
    (h : calculatePrice items = .ok amount) :
    ∃ n : Nat, amount * LAMPORTS_PER_SOL = (n : Rat) := by
  induction items generalizing amount with
  | nil =>
    simp [calculatePrice] at h
    exact ⟨0, by simp [← h]⟩
  | cons item rest ih =>
    obtain ⟨id, qty⟩ := item
    simp only [calculatePrice] at h
    cases hf : products.find? (fun p => p.id == id) with
    | none => rw [hf] at h; simp at h
    | some p =>
      rw [hf] at h
      cases hr : calculatePrice rest with
      | error e => rw [hr] at h; simp [Except.map] at h
      | ok t =>
        rw [hr] at h
        simp [Except.map] at h
        obtain ⟨n, hn⟩ := ih t hr
        have hp := List.mem_of_find?_eq_some hf
        have hprice : p.priceSol * LAMPORTS_PER_SOL = (50000000 : Rat) ∨
            p.priceSol * LAMPORTS_PER_SOL = (100000000 : Rat) := by
          simp [products] at hp
          rcases hp with h1 | h2
          · left; rw [h1]; norm_num [LAMPORTS_PER_SOL]
          · right; rw [h2]; norm_num [LAMPORTS_PER_SOL]
        rcases hprice with hpr | hpr
        · refine ⟨n + qty * 50000000, ?_⟩
          rw [← h, add_mul, hn, mul_assoc, hpr]
          push_cast
          ring
        · refine ⟨n + qty * 100000000, ?_⟩
          rw [← h, add_mul, hn, mul_assoc, hpr]
          push_cast
          ring

/-- Once the interval is unscheduled, no later event queries the
ledger, emits a confirmation, reports an error, or reschedules it. -/
theorem pollerRun_inactive (events : List PollEvent) (s : PollerState)
    (h : s.timerActive = false) :
    (pollerRun s events).timerActive = false ∧
    (pollerRun s events).queriesMade = s.queriesMade ∧
    (pollerRun s events).confirmations = s.confirmations ∧
    (pollerRun s events).errorsReported = s.errorsReported := by
  induction events generalizing s with
  | nil => exact ⟨h, rfl, rfl, rfl⟩
  | cons e rest ih =>
    cases e with
    | tick r =>
      have hstep : pollerStep s (.tick r) = s := by simp [pollerStep, h]
      simpa [pollerRun, hstep] using ih s h
    | cleanup =>
      have := ih { s with timerActive := false } rfl
      simpa [pollerRun, pollerStep] using this

/-- `getTransaction` touches only the `transaction` and `message` state
hooks: the memoized reference, the generation count and the ghost log
are untouched on every branch. -/
theorem getTransaction_fields (publicKey : Option Pubkey) (response : ApiResponse)
    (s : ClientState) :
    (getTransaction publicKey response s).reference = s.reference ∧
    (getTransaction publicKey response s).referencesGenerated = s.referencesGenerated ∧
    (getTransaction publicKey response s).builtTxs = s.builtTxs := by
  cases publicKey with
  | none => exact ⟨rfl, rfl, rfl⟩
  | some pk =>
    by_cases h : response.status ≠ 200
    · simp [getTransaction, h]
    · cases hb : response.body <;> simp [getTransaction, h, hb]

/-- Any transaction the handler builds for a request whose query holds
reference `r` carries `r` as its appended lookup key. -/
theorem handlerBuiltTx_carries (ledger : Except String Blockhash)
    (items : List (String × Nat)) (r acct : Pubkey) (tx : Transaction)
    (h : handlerBuiltTx ledger ⟨items, some r, some acct⟩ = some tx) :
    carriesReference r tx := by
  unfold handlerBuiltTx at h
  rcases hc : calculatePrice items with e | amount <;> rw [hc] at h
  · simp at h
  · by_cases hz : amount = 0
    · simp [hz] at h
    · rcases hl : ledger with e | bh <;> rw [hl] at h
      · simp [hz] at h
      · simp [hz] at h
        subst h
        exact ⟨_, [⟨acct, true, true⟩, ⟨shopAddress, false, true⟩], rfl, rfl⟩

/-- One run of the transaction-fetch effect never changes the memoized
reference or its generation count, and only extends the log of built
transactions with ones carrying the current reference. -/
theorem checkoutStep_fields (ledger : Except String Blockhash)
    (items : List (String × Nat)) (s : ClientState) (e : Option Pubkey) :
    (checkoutStep ledger items s e).reference = s.reference ∧
    (checkoutStep ledger items s e).referencesGenerated = s.referencesGenerated ∧
    ∀ tx ∈ (checkoutStep ledger items s e).builtTxs,
      tx ∈ s.builtTxs ∨ carriesReference s.reference tx := by
  cases e with
  | none => exact ⟨rfl, rfl, fun tx h => Or.inl h⟩
  | some acct =>
    have hg := getTransaction_fields (some acct)
      (handler ledger ⟨items, some s.reference, some acct⟩) s
    refine ⟨hg.1, hg.2.1, ?_⟩
    intro tx htx
    simp only [checkoutStep] at htx
    rw [List.mem_append] at htx
    rcases htx with hmem | hmem
    · rw [hg.2.2] at hmem
      exact Or.inl hmem
    · right
      rcases hb : handlerBuiltTx ledger ⟨items, some s.reference, some acct⟩ with _ | t
      · rw [hb] at hmem; simp [Option.toList] at hmem
      · rw [hb] at hmem
        simp [Option.toList] at hmem
        subst hmem
        exact handlerBuiltTx_carries ledger items s.reference acct tx hb

/-- Iterated form of `checkoutStep_fields`, over a whole sequence of
wallet-change events. -/
theorem runCheckout_invariant (ledger : Except String Blockhash)
    (items : List (String × Nat)) (events : List (Option Pubkey)) (s : ClientState) :
    (runCheckout ledger items s events).reference = s.reference ∧
    (runCheckout ledger items s events).referencesGenerated = s.referencesGenerated ∧
    ∀ tx ∈ (runCheckout ledger items s events).builtTxs,
      tx ∈ s.builtTxs ∨ carriesReference s.reference tx := by
  induction events generalizing s with
  | nil => exact ⟨rfl, rfl, fun tx h => Or.inl h⟩
  | cons e rest ih =>
    have hstep := checkoutStep_fields ledger items s e
    have hrest := ih (checkoutStep ledger items s e)
    refine ⟨?_, ?_, ?_⟩
    · rw [show runCheckout ledger items s (e :: rest)
          = runCheckout ledger items (checkoutStep ledger items s e) rest from rfl,
        hrest.1, hstep.1]
    · rw [show runCheckout ledger items s (e :: rest)
          = runCheckout ledger items (checkoutStep ledger items s e) rest from rfl,
        hrest.2.1, hstep.2.1]
    · intro tx htx
      rw [show runCheckout ledger items s (e :: rest)
          = runCheckout ledger items (checkoutStep ledger items s e) rest from rfl] at htx
      rcases hrest.2.2 tx htx with hmem | hcar
      · rcases hstep.2.2 tx hmem with hmem2 | hcar2
        · exact Or.inl hmem2
        · exact Or.inr hcar2
      · rw [hstep.1] at hcar
        exact Or.inr hcar

/-- Claim C1: for every request to the build-transaction API with a
known product selection (a selection the price calculator accepts, with
a nonzero total), a reference, and a buyer account, and an available
ledger, the handler answers 200 with the serialization of a transaction
that contains exactly one instruction, a System Program transfer from
the buyer address to the shop address of `amount * LAMPORTS_PER_SOL`
lamports, whose fee payer is the buyer address, and to whose key list
the reference is appended last with `isSigner = false` and
`isWritable = false`. -/
theorem handler_builds_single_transfer_with_reference (bh : Blockhash)
    (items : List (String × Nat)) (amount : Rat) (buyer reference : Pubkey)
    (hcalc : calculatePrice items = .ok amount) (hamt : amount ≠ 0) :
    ∃ st, serializeTx (makeTransaction bh buyer shopAddress reference amount) = some st ∧
      handler (.ok bh) ⟨items, some reference, some buyer⟩ =
        ⟨200, .output st "Thanks for your order! 🍪"⟩ ∧
      (makeTransaction bh buyer shopAddress reference amount).feePayer = some buyer ∧
      (makeTransaction bh buyer shopAddress reference amount).instructions =
        [{ programId := systemProgramId
         , keys := [⟨buyer, true, true⟩, ⟨shopAddress, false, true⟩,
                    ⟨reference, false, false⟩]
         , data := amount * LAMPORTS_PER_SOL }] := by
  refine ⟨_, rfl, ?_, rfl, rfl⟩
  simp [handler, hcalc, hamt, serializeTx, makeTransaction]

/-- Witness for C1, at the end-to-end scenario of the spec: two boxes of
cookies, buyer address 1, reference 3, blockhash 5, amount 0.10 SOL. -/
theorem handler_builds_single_transfer_with_reference_witness :
    ∃ st, serializeTx (makeTransaction 5 1 shopAddress 3 (1/10)) = some st ∧
      handler (.ok 5) ⟨[("box-of-cookies", 2)], some 3, some 1⟩ =
        ⟨200, .output st "Thanks for your order! 🍪"⟩ ∧
      (makeTransaction 5 1 shopAddress 3 (1/10)).feePayer = some 1 ∧
      (makeTransaction 5 1 shopAddress 3 (1/10)).instructions =
        [{ programId := systemProgramId
         , keys := [⟨1, true, true⟩, ⟨shopAddress, false, true⟩, ⟨3, false, false⟩]
         , data := (1/10) * LAMPORTS_PER_SOL }] :=
  handler_builds_single_transfer_with_reference 5 [("box-of-cookies", 2)] (1/10) 1 3
    (by norm_num [calculatePrice, products, List.find?, Except.map]) (by norm_num)

/-- Claim C2: decoding the serialized transport form of a transaction
built by the handler yields a transaction equal to the original — same
blockhash, same fee payer, and the same single instruction including the
appended reference key with its `isSigner`/`isWritable` flags — with the
signature slot of the buyer present but empty. The hypotheses say that
the buyer, the shop, the freshly generated reference and the System
Program address are four distinct addresses, which every real checkout
satisfies. -/
theorem serialize_roundtrip_preserves_transaction (bh : Blockhash)
    (buyer reference : Pubkey) (amount : Rat)
    (hbs : buyer ≠ shopAddress) (hb0 : buyer ≠ systemProgramId)
    (hrb : reference ≠ buyer) (hrs : reference ≠ shopAddress)
    (hr0 : reference ≠ systemProgramId) :
    ∃ st, serializeTx (makeTransaction bh buyer shopAddress reference amount) = some st ∧
      populateTx st = { makeTransaction bh buyer shopAddress reference amount with
                        signatures := [⟨none, buyer⟩] } := by
  simp only [shopAddress, systemProgramId] at hbs hb0 hrb hrs hr0
  have hsb := Ne.symm hbs
  have h0b := Ne.symm hb0
  have hbr := Ne.symm hrb
  have hsr := Ne.symm hrs
  have h0r := Ne.symm hr0
  simp [serializeTx, makeTransaction, SystemProgram.transfer, compileMessage,
    cullDuplicateMetas, sortMetas, insertMeta, metaLE, collectProgramIds, idxOf,
    populateTx, isAccountWritable, getKey, lookupSignature, mergeIntoFirst,
    shopAddress, systemProgramId, Nat.le_zero,
    hbs, hb0, hrb, hrs, hr0, hsb, h0b, hbr, hsr, h0r]

/-- Witness for C2, at buyer 1, reference 3, blockhash 5, 0.10 SOL. -/
theorem serialize_roundtrip_preserves_transaction_witness :
    ∃ st, serializeTx (makeTransaction 5 1 shopAddress 3 (1/10)) = some st ∧
      populateTx st = { makeTransaction 5 1 shopAddress 3 (1/10) with
                        signatures := [⟨none, 1⟩] } :=
  serialize_roundtrip_preserves_transaction 5 1 3 (1/10)
    (by decide) (by decide) (by decide) (by decide) (by decide)

/-- Claim C3: on a tick of the confirmation poller, a
`FindReferenceError` outcome reports no error and polling continues,
while any other failure is surfaced as one logged error and polling
still continues; the resulting error counts differ, so the two cases are
never conflated. -/
theorem poll_tick_distinguishes_not_found_from_error (s : PollerState)
    (msg : String) (h : s.timerActive = true) :
    (pollerStep s (.tick .findReferenceError)).errorsReported = s.errorsReported ∧
    (pollerStep s (.tick .findReferenceError)).timerActive = true ∧
    (pollerStep s (.tick .findReferenceError)).queriesMade = s.queriesMade + 1 ∧
    (pollerStep s (.tick (.otherError msg))).errorsReported = s.errorsReported + 1 ∧
    (pollerStep s (.tick (.otherError msg))).timerActive = true ∧
    (pollerStep s (.tick (.otherError msg))).queriesMade = s.queriesMade + 1 ∧
    (pollerStep s (.tick .findReferenceError)).errorsReported ≠
      (pollerStep s (.tick (.otherError msg))).errorsReported := by
  simp [pollerStep, h]

/-- Witness for C3, at the freshly scheduled poller. -/
theorem poll_tick_distinguishes_not_found_from_error_witness :
    (pollerStep pollerInit (.tick .findReferenceError)).errorsReported =
      pollerInit.errorsReported ∧
    (pollerStep pollerInit (.tick .findReferenceError)).timerActive = true ∧
    (pollerStep pollerInit (.tick .findReferenceError)).queriesMade =
      pollerInit.queriesMade + 1 ∧
    (pollerStep pollerInit (.tick (.otherError "boom"))).errorsReported =
      pollerInit.errorsReported + 1 ∧
    (pollerStep pollerInit (.tick (.otherError "boom"))).timerActive = true ∧
    (pollerStep pollerInit (.tick (.otherError "boom"))).queriesMade =
      pollerInit.queriesMade + 1 ∧
    (pollerStep pollerInit (.tick .findReferenceError)).errorsReported ≠
      (pollerStep pollerInit (.tick (.otherError "boom"))).errorsReported :=
  poll_tick_distinguishes_not_found_from_error pollerInit "boom" rfl

/-- Counterexample to C4: the interval callback does not clear the
interval on a match, so in the run where the ledger reports the
transaction found on the second and third ticks before any cleanup, the
confirmed navigation is emitted twice and a third ledger query is issued
after the first match — refuting that the poller emits the confirmed
outcome exactly once and that no query follows the first match. -/
theorem poller_polls_again_after_match_cex :
    (pollerRun pollerInit
      [.tick .findReferenceError, .tick (.found 7), .tick (.found 7)]).confirmations = 2 ∧
    (pollerRun pollerInit
      [.tick .findReferenceError, .tick (.found 7), .tick (.found 7)]).queriesMade = 3 := by
  decide

/-- Claim C4 as amended: when a poll finds a settled transaction
carrying the reference, the poller emits the confirmed navigation on
that tick but does not itself stop the interval; polling stops exactly
when the effect cleanup runs (triggered by the navigation-induced
unmount), after which no further ledger queries occur. -/
theorem poller_match_emits_confirmed_cleanup_stops_polling (s : PollerState)
    (k : Nat) (events : List PollEvent) (h : s.timerActive = true) :
    (pollerStep s (.tick (.found k))).confirmations = s.confirmations + 1 ∧
    (pollerStep s (.tick (.found k))).timerActive = true ∧
    (pollerStep s .cleanup).timerActive = false ∧
    (pollerRun (pollerStep s .cleanup) events).queriesMade = s.queriesMade := by
  refine ⟨by simp [pollerStep, h], by simp [pollerStep, h], rfl, ?_⟩
  exact (pollerRun_inactive events _ rfl).2.1

/-- Witness for the amended C4, at the freshly scheduled poller with two
events pending after cleanup. -/
theorem poller_match_emits_confirmed_cleanup_stops_polling_witness :
    (pollerStep pollerInit (.tick (.found 7))).confirmations =
      pollerInit.confirmations + 1 ∧
    (pollerStep pollerInit (.tick (.found 7))).timerActive = true ∧
    (pollerStep pollerInit .cleanup).timerActive = false ∧
    (pollerRun (pollerStep pollerInit .cleanup)
      [.tick (.found 7), .tick .findReferenceError]).queriesMade =
      pollerInit.queriesMade :=
  poller_match_emits_confirmed_cleanup_stops_polling pollerInit 7
    [.tick (.found 7), .tick .findReferenceError] rfl

/-- Claim C5: for every amount the handler can accept (any total the
price calculator returns), the conversion to lamports is exact — the
rational `amount * LAMPORTS_PER_SOL` is a natural number, so no rounding
occurs — and the built transaction carries exactly that product as its
transfer amount. -/
theorem lamports_conversion_is_exact (bh : Blockhash) (items : List (String × Nat))
    (amount : Rat) (buyer reference : Pubkey)
    (hcalc : calculatePrice items = .ok amount) :
    (∃ n : Nat, amount * LAMPORTS_PER_SOL = (n : Rat)) ∧
    (makeTransaction bh buyer shopAddress reference amount).instructions.map
        TransactionInstruction.data = [amount * LAMPORTS_PER_SOL] :=
  ⟨calculatePrice_lamports_nat items amount hcalc, rfl⟩

/-- Witness for C5: amount 0.10 SOL converts to exactly 100,000,000
lamports. -/
theorem lamports_conversion_is_exact_witness :
    (∃ n : Nat, (1/10 : Rat) * LAMPORTS_PER_SOL = (n : Rat)) ∧
    (makeTransaction 5 1 shopAddress 3 (1/10)).instructions.map
        TransactionInstruction.data = [(100000000 : Rat)] := by
  have h := lamports_conversion_is_exact 5 [("box-of-cookies", 2)] (1/10) 1 3
    (by norm_num [calculatePrice, products, List.find?, Except.map])
  have he : (1/10 : Rat) * LAMPORTS_PER_SOL = (100000000 : Rat) := by
    norm_num [LAMPORTS_PER_SOL]
  exact ⟨h.1, by rw [h.2, he]⟩

/-- Claim C6: over any sequence of re-entries of the checkout flow
(wallet key becoming available or changing, each re-triggering the
transaction fetch), exactly one reference exists for the attempt: the
generation count stays 1, the memoized reference never changes, and
every transaction the server builds during the attempt carries that
single reference as its appended lookup key. -/
theorem one_reference_per_checkout_attempt (ledger : Except String Blockhash)
    (items : List (String × Nat)) (ref : Pubkey) (events : List (Option Pubkey)) :
    (runCheckout ledger items (mountCheckout ref) events).referencesGenerated = 1 ∧
    (runCheckout ledger items (mountCheckout ref) events).reference = ref ∧
    ∀ tx ∈ (runCheckout ledger items (mountCheckout ref) events).builtTxs,
      carriesReference ref tx := by
  have h := runCheckout_invariant ledger items events (mountCheckout ref)
  refine ⟨h.2.1, h.1, ?_⟩
  intro tx htx
  rcases h.2.2 tx htx with hmem | hcar
  · simp [mountCheckout] at hmem
  · exact hcar

/-- Witness for C6: one attempt with reference 3 in which the wallet key
1 arrives once; the single built transaction carries reference 3. -/
theorem one_reference_per_checkout_attempt_witness :
    (runCheckout (.ok 5) [("box-of-cookies", 2)] (mountCheckout 3)
      [some 1]).referencesGenerated = 1 ∧
    carriesReference 3 (makeTransaction 5 1 shopAddress 3 (1/10)) := by
  have hc : calculatePrice [("box-of-cookies", 2)] = .ok (1/10) := by
    norm_num [calculatePrice, products, List.find?, Except.map]
  have hb : (runCheckout (.ok 5) [("box-of-cookies", 2)] (mountCheckout 3)
      [some 1]).builtTxs = [makeTransaction 5 1 shopAddress 3 (1/10)] := by
    norm_num [runCheckout, checkoutStep, handlerBuiltTx, hc, getTransaction,
      handler, serializeTx, makeTransaction, mountCheckout]
  have h := one_reference_per_checkout_attempt (.ok 5) [("box-of-cookies", 2)] 3 [some 1]
  exact ⟨h.1, h.2.2 (makeTransaction 5 1 shopAddress 3 (1/10))
    (hb ▸ List.mem_singleton.mpr rfl)⟩

/-- Counterexample to C7: at a checkout state holding a fetched
transaction, `trySendTransaction` handles a user decline and a stale
validity anchor identically — the same logged-error result and an
unchanged state — refuting that the two failure kinds are handled
differently (no terminal Failed state is entered and no rebuild with a
fresh anchor is triggered). -/
theorem send_failures_handled_identically_cex :
    trySendTransaction
        ⟨3, 1, some (makeTransaction 5 1 shopAddress 3 (1/10)), none, []⟩
        .userRejected =
      trySendTransaction
        ⟨3, 1, some (makeTransaction 5 1 shopAddress 3 (1/10)), none, []⟩
        .staleTransaction ∧
    (trySendTransaction
        ⟨3, 1, some (makeTransaction 5 1 shopAddress 3 (1/10)), none, []⟩
        .staleTransaction).1 =
      ⟨3, 1, some (makeTransaction 5 1 shopAddress 3 (1/10)), none, []⟩ := by
  exact ⟨rfl, rfl⟩

/-- Claim C7 as amended: every failed submission — user decline, stale
validity anchor, or any other failure — is handled the same way: the
error is logged (exactly when a transaction was present to send) and the
checkout state is left unchanged; no Failed transition, no rebuild, no
retry, and no distinction between the failure kinds. -/
theorem send_failure_logs_and_leaves_state_unchanged (s : ClientState) (m : String) :
    trySendTransaction s .userRejected = trySendTransaction s .staleTransaction ∧
    trySendTransaction s .staleTransaction = trySendTransaction s (.otherFailure m) ∧
    (trySendTransaction s .userRejected).1 = s ∧
    (trySendTransaction s .staleTransaction).1 = s ∧
    ((trySendTransaction s .staleTransaction).2 = true ↔ s.transaction.isSome) := by
  cases h : s.transaction <;> simp [trySendTransaction, h]

/-- Claim C8: the effect cleanup — the one exit path of the polling
activity, run by React on unmount for confirmation, cancellation,
navigation away, and error alike — releases the timer from any state,
and afterwards no event can issue another ledger query, emit another
confirmation, or reschedule the timer. -/
theorem poller_cleanup_releases_timer_and_stops_queries (s : PollerState)
    (events : List PollEvent) :
    (pollerStep s .cleanup).timerActive = false ∧
    (pollerRun (pollerStep s .cleanup) events).queriesMade = s.queriesMade ∧
    (pollerRun (pollerStep s .cleanup) events).confirmations = s.confirmations ∧
    (pollerRun (pollerStep s .cleanup) events).timerActive = false := by
  have h := pollerRun_inactive events (pollerStep s .cleanup) rfl
  exact ⟨rfl, h.2.1, h.2.2.1, h.1⟩

/-- Claim C9: every handler response has status 200, 400 or 500; 200
responses carry a transaction and a message; non-200 responses carry an
error body; a zero computed amount, a missing reference and a missing
account each yield their 400 error; a price-calculation throw or a
ledger failure yields 500; and every 500 body is the fixed generic
string, independent of the internal error detail, which is therefore
never leaked to the caller. -/
theorem handler_status_and_error_body_contract (ledger : Except String Blockhash)
    (req : ApiRequest) :
    ((handler ledger req).status = 200 ∨ (handler ledger req).status = 400 ∨
      (handler ledger req).status = 500) ∧
    ((handler ledger req).status = 200 →
      ∃ st msg, (handler ledger req).body = .output st msg) ∧
    ((handler ledger req).status ≠ 200 →
      ∃ e, (handler ledger req).body = .failure e) ∧
    (∀ e, calculatePrice req.items = .error e →
      handler ledger req = ⟨500, .failure "error creating transaction"⟩) ∧
    (calculatePrice req.items = .ok 0 →
      handler ledger req = ⟨400, .failure "Can't checkout with charge of 0"⟩) ∧
    (∀ amount, calculatePrice req.items = .ok amount → amount ≠ 0 →
      req.reference = none →
      handler ledger req = ⟨400, .failure "No reference provided"⟩) ∧
    (∀ amount r, calculatePrice req.items = .ok amount → amount ≠ 0 →
      req.reference = some r → req.account = none →
      handler ledger req = ⟨400, .failure "No account provided"⟩) ∧
    (∀ amount r a e, calculatePrice req.items = .ok amount → amount ≠ 0 →
      req.reference = some r → req.account = some a → ledger = .error e →
      handler ledger req = ⟨500, .failure "error creating transaction"⟩) ∧
    ((handler ledger req).status = 500 →
      (handler ledger req).body = .failure "error creating transaction") := by
  have hshape :
      (handler ledger req).status = 200 ∧
        (∃ st m, (handler ledger req).body = .output st m) ∨
      (handler ledger req).status = 400 ∧
        (∃ e, (handler ledger req).body = .failure e) ∨
      (handler ledger req).status = 500 ∧
        (handler ledger req).body = .failure "error creating transaction" := by
    rcases hc : calculatePrice req.items with e | amount
    · right; right; simp [handler, hc]
    · by_cases hz : amount = 0
      · right; left; simp [handler, hc, hz]
      · rcases hr : req.reference with _ | r
        · right; left; simp [handler, hc, hz, hr]
        · rcases ha : req.account with _ | a
          · right; left; simp [handler, hc, hz, hr, ha]
          · rcases hl : ledger with e | bh
            · right; right; simp [handler, hc, hz, hr, ha, hl]
            · left
              simp [handler, hc, hz, hr, ha, hl, serializeTx, makeTransaction]
  refine ⟨?_, ?_, ?_, ?_, ?_, ?_, ?_, ?_, ?_⟩
  · rcases hshape with ⟨h, _⟩ | ⟨h, _⟩ | ⟨h, _⟩ <;> simp [h]
  · intro h200
    rcases hshape with ⟨_, hb⟩ | ⟨h, _⟩ | ⟨h, _⟩
    · exact hb
    · rw [h] at h200; omega
    · rw [h] at h200; omega
  · intro hne
    rcases hshape with ⟨h, _⟩ | ⟨_, hb⟩ | ⟨_, hb⟩
    · exact absurd h hne
    · exact hb
    · exact ⟨_, hb⟩
  · intro e he; simp [handler, he]
  · intro h0; simp [handler, h0]
  · intro amount hok hne href; simp [handler, hok, hne, href]
  · intro amount r hok hne href hacc; simp [handler, hok, hne, href, hacc]
  · intro amount r a e hok hne href hacc hled
    simp [handler, hok, hne, href, hacc, hled]
  · intro h500
    rcases hshape with ⟨h, _⟩ | ⟨h, _⟩ | ⟨_, hb⟩
    · rw [h] at h500; omega
    · rw [h] at h500; omega
    · exact hb

/-- Witness for C9: a ledger failure whose internal detail names a
private host yields the generic 500 body, and a missing reference yields
its 400 body. -/
theorem handler_status_and_error_body_contract_witness :
    handler (.error "rpc node 10.0.0.5 timed out")
        ⟨[("box-of-cookies", 2)], some 3, some 1⟩ =
      ⟨500, .failure "error creating transaction"⟩ ∧
    handler (.ok 5) ⟨[("box-of-cookies", 2)], none, some 1⟩ =
      ⟨400, .failure "No reference provided"⟩ := by
  refine ⟨?_, ?_⟩
  · exact (handler_status_and_error_body_contract (.error "rpc node 10.0.0.5 timed out")
      ⟨[("box-of-cookies", 2)], some 3, some 1⟩).2.2.2.2.2.2.2.1
      (1/10) 3 1 "rpc node 10.0.0.5 timed out"
      (by norm_num [calculatePrice, products, List.find?, Except.map]) (by norm_num)
      rfl rfl rfl
  · exact (handler_status_and_error_body_contract (.ok 5)
      ⟨[("box-of-cookies", 2)], none, some 1⟩).2.2.2.2.2.1
      (1/10) (by norm_num [calculatePrice, products, List.find?, Except.map])
      (by norm_num) rfl

/-- Claim C10: when the API answers with any status other than 200,
`getTransaction` returns without calling `setTransaction` or
`setMessage`, so the entire client state — in particular the transaction
and message pair — is unchanged. -/
theorem non_200_response_leaves_client_state_unchanged (publicKey : Option Pubkey)
    (response : ApiResponse) (s : ClientState) (h : response.status ≠ 200) :
    getTransaction publicKey response s = s := by
  cases publicKey with
  | none => rfl
  | some pk => simp [getTransaction, h]

/-- Witness for C10: a 400 response leaves the freshly mounted state
untouched. -/
theorem non_200_response_leaves_client_state_unchanged_witness :
    getTransaction (some 1) ⟨400, .failure "No reference provided"⟩ (mountCheckout 3) =
      mountCheckout 3 :=
  non_200_response_leaves_client_state_unchanged (some 1)
    ⟨400, .failure "No reference provided"⟩ (mountCheckout 3) (by decide)
